import Mathlib

/-!
Shallow embedding of `roboviz/__init__.py` (PyRoboViz): the `Visualizer` and
`MapVisualizer` classes.  World quantities, scales and display coordinates are
modelled with exact rationals.  The matplotlib figure is modelled by the data
the code reads and writes: the figure identity token (`figid`), the axis
configuration installed on the first pose, the current arrow glyph, the
trajectory line segments added to the axes, and the map image artist.  Glyph
and artist object identity is modelled with a fresh-id counter.  The external
event pump (`plt.pause`) is modelled by a boolean saying whether that pause
raises; the identity of the currently active figure (`plt.gcf()`) is an
argument of `refresh`.
-/

/-- `Visualizer.ROBOT_HEIGHT_M` -/
def ROBOT_HEIGHT_M : ℚ := 0.5

/-- `Visualizer.ROBOT_WIDTH_M` -/
def ROBOT_WIDTH_M : ℚ := 0.3

/-- The arrow glyph drawn by `self.ax.arrow(...)`: anchor point, the heading
angle in degrees (which determines the short shaft offset
`(0.1·cos θ, 0.1·sin θ)`), and the head dimensions.  `aid` models the Python
object identity of the matplotlib artist. -/
structure Arrow where
  aid : Nat
  posX : ℚ
  posY : ℚ
  thetaDeg : ℚ
  headWidth : ℚ
  headLength : ℚ
deriving DecidableEq

/-- The axis state installed on the first `_setPose` call: `set_xlim`,
`set_ylim`, the tick positions produced by `np.arange`, and the numeric values
whose string forms become the tick labels. -/
structure AxisConfig where
  xlim : ℚ × ℚ
  ylim : ℚ × ℚ
  ticks : List ℚ
  tickLabels : List ℚ
deriving DecidableEq

/-- The mutable attributes of a `Visualizer` / `MapVisualizer` instance,
together with the drawing-surface data the instance owns. -/
structure VizState where
  map_size_pixels : Nat
  map_scale_meters_per_pixel : ℚ
  windowTitle : String
  plotTitle : String
  img_artist : Option (Nat × List (List Nat))
  vehicle : Option Arrow
  prevpos : Option (ℚ × ℚ)
  showtraj : Bool
  zero_angle : Option ℚ
  start_angle : Option ℚ
  start_pos : Option (ℚ × ℚ)
  shift : ℚ
  figid : Nat
  axisCfg : Option AxisConfig
  segments : List ((ℚ × ℚ) × (ℚ × ℚ))
  nextId : Nat
deriving DecidableEq

/-- `Visualizer.__init__(map_size_pixels, map_size_meters, title,
show_trajectory, zero_angle)`.  The constructor stores
`scale = map_size_meters / map_size_pixels`, captures the figure id, sets the
window title to the literal `'SLAM'` and the plot title to `title`, and
initialises the shift for centering at the origin. -/
def Visualizer.init (map_size_pixels : Nat) (map_size_meters : ℚ)
    (title : String) (show_trajectory : Bool) (zero_angle : Option ℚ)
    (figid : Nat) : VizState :=
  { map_size_pixels := map_size_pixels
    map_scale_meters_per_pixel := map_size_meters / (map_size_pixels : ℚ)
    windowTitle := "SLAM"
    plotTitle := title
    img_artist := none
    vehicle := none
    prevpos := none
    showtraj := show_trajectory
    zero_angle := zero_angle
    start_angle := none
    start_pos := none
    shift := -(map_size_pixels : ℚ) / 2
    figid := figid
    axisCfg := none
    segments := []
    nextId := 0 }

/-- `MapVisualizer.__init__`: the base constructor, then the shift is reset to
put the origin in the lower-left corner. -/
def MapVisualizer.init (map_size_pixels : Nat) (map_size_meters : ℚ)
    (title : String) (show_trajectory : Bool) (zero_angle : Option ℚ)
    (figid : Nat) : VizState :=
  { Visualizer.init map_size_pixels map_size_meters title show_trajectory
      zero_angle figid with shift := 0 }

/-- `np.arange(start, stop, step)` for a positive rational step: the values
`start + i·step` with `i = 0, 1, ...` while strictly below `stop`. -/
def arange (start stop step : ℚ) : List ℚ :=
  (List.range (⌈(stop - start) / step⌉).toNat).map
    (fun (i : Nat) => start + (i : ℚ) * step)

/-- `Visualizer._m2pix`: divide world coordinates by the scale. -/
def Visualizer.m2pix (s : VizState) (x_m y_m : ℚ) : ℚ × ℚ :=
  (x_m / s.map_scale_meters_per_pixel, y_m / s.map_scale_meters_per_pixel)

/-- The zero-angle block of `_setPose`: when a zero angle was configured and
no start angle has been captured yet, capture the incoming pose. -/
def captureZero (s : VizState) (x_m y_m theta_deg : ℚ) : VizState :=
  if s.zero_angle.isSome && s.start_angle.isNone then
    { s with start_angle := some theta_deg, start_pos := some (x_m, y_m) }
  else s

/-- The axis configuration built on the first `_setPose` call: limits
`[shift, map_size_pixels + shift]` on both axes, ticks from
`np.arange(shift, map_size_pixels + shift + 100, 100)`, labels
`str(scale * tick)`. -/
def mkAxis (s : VizState) : AxisConfig :=
  let n : ℚ := s.map_size_pixels
  let ticks := arange s.shift (n + s.shift + 100) 100
  { xlim := (s.shift, n + s.shift)
    ylim := (s.shift, n + s.shift)
    ticks := ticks
    tickLabels := ticks.map (fun t => s.map_scale_meters_per_pixel * t) }

/-- The `if self.vehicle is None` block of `_setPose`: on the first call the
axes are configured; otherwise the previous glyph is removed from the canvas
(it is replaced by the new arrow right after). -/
def setupAxesOrRemove (s : VizState) : VizState :=
  if s.vehicle.isNone then { s with axisCfg := some (mkAxis s) }
  else { s with vehicle := none }

/-- The `self.ax.arrow(...)` call of `_setPose`: a fresh arrow artist anchored
at `(x_m/s, y_m/s)` with heading `theta_deg` and head dimensions
`ROBOT_WIDTH_M/s`, `ROBOT_HEIGHT_M/s`. -/
def drawArrow (s : VizState) (x_m y_m theta_deg : ℚ) : VizState :=
  let sc := s.map_scale_meters_per_pixel
  { s with
    vehicle := some
      { aid := s.nextId
        posX := x_m / sc
        posY := y_m / sc
        thetaDeg := theta_deg
        headWidth := ROBOT_WIDTH_M / sc
        headLength := ROBOT_HEIGHT_M / sc }
    nextId := s.nextId + 1 }

/-- The trajectory block of `_setPose`: when trajectory display is on and a
previous position exists, add a line from it to the current converted
position; then store the current position as previous. -/
def addTraj (s : VizState) (x_m y_m : ℚ) : VizState :=
  let currpos := Visualizer.m2pix s x_m y_m
  let s1 :=
    match s.showtraj, s.prevpos with
    | true, some p => { s with segments := s.segments ++ [(p, currpos)] }
    | _, _ => s
  { s1 with prevpos := some currpos }

/-- `Visualizer._setPose(x_m, y_m, theta_deg)`, block by block in source
order. -/
def Visualizer.setPose (s : VizState) (x_m y_m theta_deg : ℚ) : VizState :=
  addTraj (drawArrow (setupAxesOrRemove (captureZero s x_m y_m theta_deg))
    x_m y_m theta_deg) x_m y_m

/-- `Visualizer._refresh()`: returns `False` when the active figure is no
longer the one captured at construction; otherwise redraws and pauses, with
the pause wrapped in try/except — a raise during it yields `False`. -/
def Visualizer.refresh (s : VizState) (gcfId : Nat) (pauseRaises : Bool) :
    Bool :=
  if s.figid ≠ gcfId then false
  else if pauseRaises then false
  else true

/-- `Visualizer.display(x_m, y_m, theta_deg)`: `_setPose` then `_refresh`. -/
def Visualizer.display (s : VizState) (x_m y_m theta_deg : ℚ)
    (gcfId : Nat) (pauseRaises : Bool) : VizState × Bool :=
  let s1 := Visualizer.setPose s x_m y_m theta_deg
  (s1, Visualizer.refresh s1 gcfId pauseRaises)

/-- The grid produced by
`np.reshape(np.frombuffer(mapbytes, dtype=np.uint8), (n, n))` when it
succeeds: `n` rows of `n` consecutive bytes, row-major. -/
def reshapeGrid (buf : List Nat) (n : Nat) : List (List Nat) :=
  (List.range n).map (fun i => (buf.drop (i * n)).take n)

/-- `np.reshape` of the flat buffer into an `n × n` grid; raises (here:
`none`) when the buffer length is not `n²`. -/
def reshape (buf : List Nat) (n : Nat) : Option (List (List Nat)) :=
  if buf.length = n * n then some (reshapeGrid buf n) else none

/-- `MapVisualizer.display(x_m, y_m, theta_deg, mapbytes)`: `_setPose`, then
the reshape (which raises on a bad buffer length), then an unprotected
`plt.pause(.001)` (a raise there propagates), then create-or-update of the
image artist, then `_refresh`.  The returned state is the object state at
normal return or at the point the exception escapes; `Except.error ()` models
a propagating exception. -/
def MapVisualizer.display (s : VizState) (x_m y_m theta_deg : ℚ)
    (mapbytes : List Nat) (gcfId : Nat) (pause1Raises pause2Raises : Bool) :
    VizState × Except Unit Bool :=
  let s1 := Visualizer.setPose s x_m y_m theta_deg
  match reshape mapbytes s1.map_size_pixels with
  | none => (s1, Except.error ())
  | some mapimg =>
    if pause1Raises then (s1, Except.error ())
    else
      let s2 :=
        match s1.img_artist with
        | none =>
          { s1 with img_artist := some (s1.nextId, mapimg)
                    nextId := s1.nextId + 1 }
        | some (i, _) => { s1 with img_artist := some (i, mapimg) }
      (s2, Except.ok (Visualizer.refresh s2 gcfId pause2Raises))

/-- A sequence of `_setPose` calls (the pose part of sequential `display`
calls). -/
def displayAll (s : VizState) (ps : List (ℚ × ℚ × ℚ)) : VizState :=
  ps.foldl (fun st p => Visualizer.setPose st p.1 p.2.1 p.2.2) s

/-- World pose to converted display position, at a given scale. -/
def convPoint (sc : ℚ) (p : ℚ × ℚ × ℚ) : ℚ × ℚ := (p.1 / sc, p.2.1 / sc)

/-- The consecutive pairs of a list: the segments a trajectory drawn through
these points consists of. -/
def consecSegs : List (ℚ × ℚ) → List ((ℚ × ℚ) × (ℚ × ℚ))
  | [] => []
  | [_] => []
  | a :: b :: rest => (a, b) :: consecSegs (b :: rest)

/-- Forget the zero-angle configuration and captured reference. -/
def eraseZero (s : VizState) : VizState :=
  { s with zero_angle := none, start_angle := none, start_pos := none }

/-- The trajectory segment possibly added by one `_setPose` call. -/
def trajAdd (s : VizState) (x_m y_m : ℚ) : List ((ℚ × ℚ) × (ℚ × ℚ)) :=
  match s.showtraj, s.prevpos with
  | true, some p => [(p, Visualizer.m2pix s x_m y_m)]
  | _, _ => []

/-- `_setPose` written out as a single record update of the instance state. -/
theorem setPose_eq (s : VizState) (x y θ : ℚ) :
    Visualizer.setPose s x y θ =
      { s with
        start_angle :=
          if s.zero_angle.isSome && s.start_angle.isNone then some θ
          else s.start_angle
        start_pos :=
          if s.zero_angle.isSome && s.start_angle.isNone then some (x, y)
          else s.start_pos
        axisCfg := if s.vehicle.isNone then some (mkAxis s) else s.axisCfg
        vehicle := some
          { aid := s.nextId
            posX := x / s.map_scale_meters_per_pixel
            posY := y / s.map_scale_meters_per_pixel
            thetaDeg := θ
            headWidth := ROBOT_WIDTH_M / s.map_scale_meters_per_pixel
            headLength := ROBOT_HEIGHT_M / s.map_scale_meters_per_pixel }
        nextId := s.nextId + 1
        segments := s.segments ++ trajAdd s x y
        prevpos := some (Visualizer.m2pix s x y) } := by
  unfold Visualizer.setPose addTraj drawArrow setupAxesOrRemove captureZero
    trajAdd
  rcases hza : (s.zero_angle.isSome && s.start_angle.isNone) <;>
    rcases hv : s.vehicle with _ | arr <;>
    rcases hst : s.showtraj <;>
    rcases hp : s.prevpos with _ | p <;>
    simp [hza, hv, hst, hp, Visualizer.m2pix, mkAxis]

@[simp]
theorem setPose_map_size_pixels (s : VizState) (x y θ : ℚ) :
    (Visualizer.setPose s x y θ).map_size_pixels = s.map_size_pixels := by
  rw [setPose_eq]

@[simp]
theorem setPose_scale (s : VizState) (x y θ : ℚ) :
    (Visualizer.setPose s x y θ).map_scale_meters_per_pixel =
      s.map_scale_meters_per_pixel := by
  rw [setPose_eq]

@[simp]
theorem setPose_windowTitle (s : VizState) (x y θ : ℚ) :
    (Visualizer.setPose s x y θ).windowTitle = s.windowTitle := by
  rw [setPose_eq]

@[simp]
theorem setPose_plotTitle (s : VizState) (x y θ : ℚ) :
    (Visualizer.setPose s x y θ).plotTitle = s.plotTitle := by
  rw [setPose_eq]

@[simp]
theorem setPose_img_artist (s : VizState) (x y θ : ℚ) :
    (Visualizer.setPose s x y θ).img_artist = s.img_artist := by
  rw [setPose_eq]

@[simp]
theorem setPose_showtraj (s : VizState) (x y θ : ℚ) :
    (Visualizer.setPose s x y θ).showtraj = s.showtraj := by
  rw [setPose_eq]

@[simp]
theorem setPose_zero_angle (s : VizState) (x y θ : ℚ) :
    (Visualizer.setPose s x y θ).zero_angle = s.zero_angle := by
  rw [setPose_eq]

@[simp]
theorem setPose_shift (s : VizState) (x y θ : ℚ) :
    (Visualizer.setPose s x y θ).shift = s.shift := by
  rw [setPose_eq]

@[simp]
theorem setPose_figid (s : VizState) (x y θ : ℚ) :
    (Visualizer.setPose s x y θ).figid = s.figid := by
  rw [setPose_eq]

@[simp]
theorem setPose_vehicle (s : VizState) (x y θ : ℚ) :
    (Visualizer.setPose s x y θ).vehicle = some
      { aid := s.nextId
        posX := x / s.map_scale_meters_per_pixel
        posY := y / s.map_scale_meters_per_pixel
        thetaDeg := θ
        headWidth := ROBOT_WIDTH_M / s.map_scale_meters_per_pixel
        headLength := ROBOT_HEIGHT_M / s.map_scale_meters_per_pixel } := by
  rw [setPose_eq]

@[simp]
theorem setPose_nextId (s : VizState) (x y θ : ℚ) :
    (Visualizer.setPose s x y θ).nextId = s.nextId + 1 := by
  rw [setPose_eq]

@[simp]
theorem setPose_prevpos (s : VizState) (x y θ : ℚ) :
    (Visualizer.setPose s x y θ).prevpos =
      some (Visualizer.m2pix s x y) := by
  rw [setPose_eq]

@[simp]
theorem setPose_segments (s : VizState) (x y θ : ℚ) :
    (Visualizer.setPose s x y θ).segments = s.segments ++ trajAdd s x y := by
  rw [setPose_eq]

@[simp]
theorem setPose_axisCfg (s : VizState) (x y θ : ℚ) :
    (Visualizer.setPose s x y θ).axisCfg =
      if s.vehicle.isNone then some (mkAxis s) else s.axisCfg := by
  rw [setPose_eq]

@[simp]
theorem setPose_start_angle (s : VizState) (x y θ : ℚ) :
    (Visualizer.setPose s x y θ).start_angle =
      if s.zero_angle.isSome && s.start_angle.isNone then some θ
      else s.start_angle := by
  rw [setPose_eq]

@[simp]
theorem setPose_start_pos (s : VizState) (x y θ : ℚ) :
    (Visualizer.setPose s x y θ).start_pos =
      if s.zero_angle.isSome && s.start_angle.isNone then some (x, y)
      else s.start_pos := by
  rw [setPose_eq]

/-- C1: with `pixelSize > 0`, the stored scale is `worldSize / pixelSize`,
and every `display(x, y, thetaDeg)` call anchors the pose glyph at display
coordinates `(x/scale, y/scale)`. -/
theorem C1_scale_and_anchor (n : Nat) (w : ℚ) (t : String) (st : Bool)
    (za : Option ℚ) (fid : Nat) (_hn : 0 < n) :
    (Visualizer.init n w t st za fid).map_scale_meters_per_pixel = w / n ∧
    ∀ (s : VizState) (x y θ : ℚ) (gid : Nat) (p : Bool),
      ((Visualizer.display s x y θ gid p).1.vehicle).map
          (fun a => (a.posX, a.posY)) =
        some (x / s.map_scale_meters_per_pixel,
          y / s.map_scale_meters_per_pixel) := by
  refine ⟨rfl, ?_⟩
  intro s x y θ gid p
  simp [Visualizer.display]

/-- C1 witness: `pixelSize=800`, `worldSize=10` gives scale `0.0125` and
`display(5,5,0)` anchors the glyph at `(400, 400)`. -/
theorem C1_witness :
    (0 < 800 ∧
      (Visualizer.init 800 10 "demo" false none 0).map_scale_meters_per_pixel
        = (0.0125 : ℚ)) ∧
    ((Visualizer.display (Visualizer.init 800 10 "demo" false none 0)
        5 5 0 0 false).1.vehicle).map (fun a => (a.posX, a.posY))
      = some (400, 400) := by
  have h := C1_scale_and_anchor 800 10 "demo" false none 0 (by decide)
  refine ⟨⟨by decide, ?_⟩, ?_⟩
  · rw [h.1]; norm_num
  · rw [h.2 (Visualizer.init 800 10 "demo" false none 0) 5 5 0 0 false]
    norm_num [Visualizer.init]

/-- C2 counterexample: with the owning window closed (active figure id `8`,
captured id `7`), `display` does return `false`, but it does NOT leave the
mutable state unchanged — the previous position is updated. -/
theorem C2_cex :
    (Visualizer.display (Visualizer.init 800 10 "t" false none 7)
        1 2 3 8 false).2 = false ∧
    (Visualizer.display (Visualizer.init 800 10 "t" false none 7)
        1 2 3 8 false).1.prevpos ≠
      (Visualizer.init 800 10 "t" false none 7).prevpos := by
  constructor
  · simp [Visualizer.display, Visualizer.refresh, Visualizer.init]
  · simp [Visualizer.display, Visualizer.init]

/-- C2 amended: after the owning window is closed, `display` and `refresh`
return `false`, and `refresh` performs no mutation; but `display` still
mutates the pose state (it equals the full `_setPose` mutation followed by
the failing refresh), because `_setPose` runs before the identity check. -/
theorem C2_closed_window (s : VizState) (x y θ : ℚ) (gid : Nat) (p : Bool)
    (h : s.figid ≠ gid) :
    Visualizer.display s x y θ gid p
        = (Visualizer.setPose s x y θ, false) ∧
    Visualizer.refresh s gid p = false := by
  constructor
  · simp [Visualizer.display, Visualizer.refresh, h]
  · simp [Visualizer.refresh, h]

/-- C2 witness. -/
theorem C2_witness :
    (Visualizer.init 800 10 "t" false none 7).figid ≠ 8 ∧
    (Visualizer.display (Visualizer.init 800 10 "t" false none 7)
        1 2 3 8 false
      = (Visualizer.setPose (Visualizer.init 800 10 "t" false none 7) 1 2 3,
        false) ∧
      Visualizer.refresh (Visualizer.init 800 10 "t" false none 7) 8 false
        = false) :=
  ⟨by decide,
    C2_closed_window (Visualizer.init 800 10 "t" false none 7) 1 2 3 8 false
      (by decide)⟩

/-- C7: two successive `display` calls with identical `(x, y, thetaDeg)`
produce a glyph with the same anchor, orientation and head dimensions, but
the glyph artist is a new object (its identity differs). -/
theorem C7_idempotent_pose_new_glyph (s : VizState) (x y θ : ℚ) :
    ∃ a1 a2 : Arrow,
      (Visualizer.setPose s x y θ).vehicle = some a1 ∧
      (Visualizer.setPose (Visualizer.setPose s x y θ) x y θ).vehicle
        = some a2 ∧
      a2.posX = a1.posX ∧ a2.posY = a1.posY ∧ a2.thetaDeg = a1.thetaDeg ∧
      a2.headWidth = a1.headWidth ∧ a2.headLength = a1.headLength ∧
      a2.aid ≠ a1.aid := by
  refine ⟨_, _, setPose_vehicle s x y θ,
    setPose_vehicle (Visualizer.setPose s x y θ) x y θ, ?_, ?_, ?_, ?_, ?_,
    ?_⟩ <;> simp

/-- C9 counterexample: the constructor called with title `"MyTitle"` sets the
window label to the literal `"SLAM"`, not to the given title; the title only
becomes the plot title. -/
theorem C9_cex :
    (Visualizer.init 800 10 "MyTitle" false none 0).windowTitle
        ≠ "MyTitle" ∧
    (Visualizer.init 800 10 "MyTitle" false none 0).windowTitle = "SLAM" ∧
    (Visualizer.init 800 10 "MyTitle" false none 0).plotTitle
        = "MyTitle" := by
  refine ⟨by decide, rfl, rfl⟩

/-- C9 amended: the title string passed at construction becomes the plot
(axes) title; the window label of the drawing surface is always the fixed
string `"SLAM"`.  The same holds for the `MapVisualizer` variant. -/
theorem C9_title_is_plot_title (n : Nat) (w : ℚ) (t : String) (st : Bool)
    (za : Option ℚ) (fid : Nat) :
    (Visualizer.init n w t st za fid).plotTitle = t ∧
    (Visualizer.init n w t st za fid).windowTitle = "SLAM" ∧
    (MapVisualizer.init n w t st za fid).plotTitle = t ∧
    (MapVisualizer.init n w t st za fid).windowTitle = "SLAM" :=
  ⟨rfl, rfl, rfl, rfl⟩

/-- C10: with a buffer whose length is not `pixelSize²`, the combined
`MapVisualizer.display` call raises (the reshape fails) instead of returning
a boolean, and the escaping state is exactly the state after the full
`_setPose` mutation: the previous position is already updated and a fresh
glyph has already been drawn. -/
theorem C10_bad_buffer (s : VizState) (x y θ : ℚ) (buf : List Nat)
    (gid : Nat) (p1 p2 : Bool)
    (h : buf.length ≠ s.map_size_pixels * s.map_size_pixels) :
    MapVisualizer.display s x y θ buf gid p1 p2
        = (Visualizer.setPose s x y θ, Except.error ()) ∧
    (Visualizer.setPose s x y θ).prevpos = some (Visualizer.m2pix s x y) ∧
    (Visualizer.setPose s x y θ).vehicle = some
      { aid := s.nextId
        posX := x / s.map_scale_meters_per_pixel
        posY := y / s.map_scale_meters_per_pixel
        thetaDeg := θ
        headWidth := ROBOT_WIDTH_M / s.map_scale_meters_per_pixel
        headLength := ROBOT_HEIGHT_M / s.map_scale_meters_per_pixel } := by
  refine ⟨?_, setPose_prevpos s x y θ, setPose_vehicle s x y θ⟩
  simp [MapVisualizer.display, reshape, h]

/-- C10 witness: a 3-byte buffer for a 2×2 map. -/
theorem C10_witness :
    ([0, 0, 0] : List Nat).length ≠
      (MapVisualizer.init 2 2 "m" false none 0).map_size_pixels *
        (MapVisualizer.init 2 2 "m" false none 0).map_size_pixels ∧
    (MapVisualizer.display (MapVisualizer.init 2 2 "m" false none 0)
        1 1 0 [0, 0, 0] 0 false false
      = (Visualizer.setPose (MapVisualizer.init 2 2 "m" false none 0) 1 1 0,
        Except.error ()) ∧
      (Visualizer.setPose (MapVisualizer.init 2 2 "m" false none 0)
          1 1 0).prevpos
        = some (Visualizer.m2pix (MapVisualizer.init 2 2 "m" false none 0)
            1 1) ∧
      (Visualizer.setPose (MapVisualizer.init 2 2 "m" false none 0)
          1 1 0).vehicle = some
        { aid := (MapVisualizer.init 2 2 "m" false none 0).nextId
          posX := 1 /
            (MapVisualizer.init 2 2 "m" false none
              0).map_scale_meters_per_pixel
          posY := 1 /
            (MapVisualizer.init 2 2 "m" false none
              0).map_scale_meters_per_pixel
          thetaDeg := 0
          headWidth := ROBOT_WIDTH_M /
            (MapVisualizer.init 2 2 "m" false none
              0).map_scale_meters_per_pixel
          headLength := ROBOT_HEIGHT_M /
            (MapVisualizer.init 2 2 "m" false none
              0).map_scale_meters_per_pixel }) :=
  ⟨by decide,
    C10_bad_buffer (MapVisualizer.init 2 2 "m" false none 0) 1 1 0 [0, 0, 0]
      0 false false (by decide)⟩

/-- C3 counterexample: in the `MapVisualizer` variant, an interruption raised
by the intermediate event-pump pause (`plt.pause(.001)`, which is not inside
any try/except) propagates out of `display` as an exception instead of being
surfaced as a boolean `false` — even with a well-formed buffer and the
original window still active. -/
theorem C3_cex :
    (MapVisualizer.display (MapVisualizer.init 2 2 "m" false none 0)
        1 1 0 [0, 0, 0, 0] 0 true false).2 = Except.error () := by
  simp [MapVisualizer.display, reshape, MapVisualizer.init, Visualizer.init]

/-- C3 amended: an interruption raised during the protected `_refresh` pause
is caught and surfaced as boolean `false`, in the pose-only `display` and in
the `_refresh` step of `MapVisualizer.display`; but an interruption raised by
the intermediate unprotected pause of `MapVisualizer.display` propagates to
the caller as an exception. -/
theorem C3_pause_handling (s : VizState) (x y θ : ℚ) (gid : Nat)
    (buf : List Nat) (p2 : Bool)
    (hbuf : buf.length = s.map_size_pixels * s.map_size_pixels)
    (hfig : s.figid = gid) :
    (Visualizer.display s x y θ gid true).2 = false ∧
    (MapVisualizer.display s x y θ buf gid false true).2
        = Except.ok false ∧
    (MapVisualizer.display s x y θ buf gid true p2).2
        = Except.error () := by
  refine ⟨?_, ?_, ?_⟩
  · simp [Visualizer.display, Visualizer.refresh, hfig]
  · rcases hart : s.img_artist with _ | ⟨i, g⟩ <;>
      simp [MapVisualizer.display, reshape, hbuf, hart, Visualizer.refresh,
        hfig]
  · simp [MapVisualizer.display, reshape, hbuf]

/-- C3 witness. -/
theorem C3_witness :
    ([0, 0, 0, 0] : List Nat).length =
      (MapVisualizer.init 2 2 "m" false none 5).map_size_pixels *
        (MapVisualizer.init 2 2 "m" false none 5).map_size_pixels ∧
    (MapVisualizer.init 2 2 "m" false none 5).figid = 5 ∧
    ((Visualizer.display (MapVisualizer.init 2 2 "m" false none 5)
        1 1 0 5 true).2 = false ∧
      (MapVisualizer.display (MapVisualizer.init 2 2 "m" false none 5)
          1 1 0 [0, 0, 0, 0] 5 false true).2 = Except.ok false ∧
      (MapVisualizer.display (MapVisualizer.init 2 2 "m" false none 5)
          1 1 0 [0, 0, 0, 0] 5 true false).2 = Except.error ()) :=
  ⟨by decide, by decide,
    C3_pause_handling (MapVisualizer.init 2 2 "m" false none 5) 1 1 0 5
      [0, 0, 0, 0] false (by decide) (by decide)⟩

theorem displayAll_nil (s : VizState) : displayAll s [] = s := rfl

theorem displayAll_cons (s : VizState) (p : ℚ × ℚ × ℚ)
    (ps : List (ℚ × ℚ × ℚ)) :
    displayAll s (p :: ps)
      = displayAll (Visualizer.setPose s p.1 p.2.1 p.2.2) ps := rfl

theorem consecSegs_length (l : List (ℚ × ℚ)) :
    (consecSegs l).length = l.length - 1 := by
  induction l with
  | nil => rfl
  | cons a t ih =>
    cases t with
    | nil => rfl
    | cons b rest =>
      simp only [consecSegs, List.length_cons] at ih ⊢
      omega

theorem consecSegs_getElem :
    ∀ (l : List (ℚ × ℚ)) (k : Nat) (a b : ℚ × ℚ),
      l[k]? = some a → l[k + 1]? = some b → (consecSegs l)[k]? = some (a, b)
  | [], k, a, b, ha, _ => by simp at ha
  | [x], k, a, b, _, hb => by rcases k with _ | k <;> simp at hb
  | x :: y :: rest, 0, a, b, ha, hb => by
    simp only [List.getElem?_cons_zero, List.getElem?_cons_succ,
      Option.some.injEq] at ha hb
    simp [consecSegs, ha, hb]
  | x :: y :: rest, (k + 1), a, b, ha, hb => by
    rw [List.getElem?_cons_succ] at ha hb
    simpa [consecSegs] using consecSegs_getElem (y :: rest) k a b ha hb

/-- The trajectory invariant of sequential `_setPose` calls: with trajectory
display on, the accumulated segments are exactly the consecutive pairs of the
converted positions, continuing from the stored previous position if any. -/
theorem displayAll_segments :
    ∀ (ps : List (ℚ × ℚ × ℚ)) (s : VizState), s.showtraj = true →
      (s.prevpos = none →
        (displayAll s ps).segments = s.segments
          ++ consecSegs (ps.map (convPoint s.map_scale_meters_per_pixel))) ∧
      (∀ c, s.prevpos = some c →
        (displayAll s ps).segments = s.segments
          ++ consecSegs (c ::
            ps.map (convPoint s.map_scale_meters_per_pixel))) := by
  intro ps
  induction ps with
  | nil =>
    intro s _
    constructor
    · intro _; simp [displayAll_nil, consecSegs]
    · intro c _; simp [displayAll_nil, consecSegs]
  | cons p ps ih =>
    intro s hst
    have hmp : Visualizer.m2pix s p.1 p.2.1
        = convPoint s.map_scale_meters_per_pixel p := rfl
    have hih := ih (Visualizer.setPose s p.1 p.2.1 p.2.2) (by simp [hst])
    have hprev : (Visualizer.setPose s p.1 p.2.1 p.2.2).prevpos
        = some (convPoint s.map_scale_meters_per_pixel p) := by
      simp [hmp]
    have hcont := hih.2 (convPoint s.map_scale_meters_per_pixel p) hprev
    constructor
    · intro hnone
      rw [displayAll_cons, hcont]
      simp [trajAdd, hst, hnone, convPoint]
    · intro c hc
      rw [displayAll_cons, hcont]
      simp [trajAdd, hst, hc, hmp, consecSegs, convPoint]

/-- C4: with `showTrajectory=true`, after `N ≥ 1` sequential `display` calls
exactly `N−1` trajectory segments have been added, and the `k`-th segment
connects the converted display position of the `k`-th call to that of the
`(k+1)`-th call, in call order. -/
theorem C4_trajectory (n : Nat) (w : ℚ) (t : String) (za : Option ℚ)
    (fid : Nat) (ps : List (ℚ × ℚ × ℚ)) (_hps : 1 ≤ ps.length) :
    ((displayAll (Visualizer.init n w t true za fid) ps).segments).length
        = ps.length - 1 ∧
    ∀ (k : Nat) (a b : ℚ × ℚ),
      (ps.map (convPoint
        (Visualizer.init n w t true za fid).map_scale_meters_per_pixel))[k]?
          = some a →
      (ps.map (convPoint
        (Visualizer.init n w t true za
          fid).map_scale_meters_per_pixel))[k + 1]?
          = some b →
      ((displayAll (Visualizer.init n w t true za fid) ps).segments)[k]?
        = some (a, b) := by
  have h := (displayAll_segments ps (Visualizer.init n w t true za fid)
    rfl).1 rfl
  have hseg : (Visualizer.init n w t true za fid).segments = [] := rfl
  rw [h, hseg]
  constructor
  · simp [consecSegs_length]
  · intro k a b ha hb
    simpa using consecSegs_getElem _ k a b ha hb

/-- C4 witness: two display calls. -/
theorem C4_witness :
    1 ≤ ([(1, 2, 0), (3, 4, 90)] : List (ℚ × ℚ × ℚ)).length ∧
    (((displayAll (Visualizer.init 800 10 "d" true none 0)
        [(1, 2, 0), (3, 4, 90)]).segments).length
      = ([(1, 2, 0), (3, 4, 90)] : List (ℚ × ℚ × ℚ)).length - 1 ∧
    ∀ (k : Nat) (a b : ℚ × ℚ),
      (([(1, 2, 0), (3, 4, 90)] : List (ℚ × ℚ × ℚ)).map (convPoint
        (Visualizer.init 800 10 "d" true none
          0).map_scale_meters_per_pixel))[k]? = some a →
      (([(1, 2, 0), (3, 4, 90)] : List (ℚ × ℚ × ℚ)).map (convPoint
        (Visualizer.init 800 10 "d" true none
          0).map_scale_meters_per_pixel))[k + 1]? = some b →
      ((displayAll (Visualizer.init 800 10 "d" true none 0)
        [(1, 2, 0), (3, 4, 90)]).segments)[k]? = some (a, b)) :=
  ⟨by decide,
    C4_trajectory 800 10 "d" none 0 [(1, 2, 0), (3, 4, 90)] (by decide)⟩

theorem reshapeGrid_getElem (buf : List Nat) (n i j : Nat) (hi : i < n)
    (hj : j < n) :
    ((reshapeGrid buf n)[i]?).bind (fun r => r[j]?) = buf[i * n + j]? := by
  simp [reshapeGrid, List.getElem?_range hi, List.getElem?_take_of_lt hj]

/-- C5: a byte buffer of length `pixelSize²` is interpreted as a
`pixelSize × pixelSize` row-major single-channel grid; on the first call the
image artist is created, and on every subsequent call only its pixel data is
replaced while its identity is unchanged. -/
theorem C5_map_artist (s : VizState) (x y θ : ℚ) (buf : List Nat)
    (gid : Nat) (p2 : Bool)
    (hbuf : buf.length = s.map_size_pixels * s.map_size_pixels) :
    (s.img_artist = none →
      ((MapVisualizer.display s x y θ buf gid false p2).1).img_artist
        = some ((Visualizer.setPose s x y θ).nextId,
            reshapeGrid buf s.map_size_pixels)) ∧
    (∀ (i : Nat) (g0 : List (List Nat)), s.img_artist = some (i, g0) →
      ((MapVisualizer.display s x y θ buf gid false p2).1).img_artist
        = some (i, reshapeGrid buf s.map_size_pixels)) ∧
    (∀ i j : Nat, i < s.map_size_pixels → j < s.map_size_pixels →
      ((reshapeGrid buf s.map_size_pixels)[i]?).bind (fun r => r[j]?)
        = buf[i * s.map_size_pixels + j]?) := by
  refine ⟨?_, ?_, ?_⟩
  · intro hart
    simp [MapVisualizer.display, reshape, hbuf, hart]
  · intro i g0 hart
    simp [MapVisualizer.display, reshape, hbuf, hart]
  · intro i j hi hj
    exact reshapeGrid_getElem buf s.map_size_pixels i j hi hj

/-- C5 witness: a 2×2 map buffer. -/
theorem C5_witness :
    ([5, 6, 7, 8] : List Nat).length =
      (MapVisualizer.init 2 2 "m" false none 0).map_size_pixels *
        (MapVisualizer.init 2 2 "m" false none 0).map_size_pixels ∧
    (((MapVisualizer.init 2 2 "m" false none 0).img_artist = none →
      ((MapVisualizer.display (MapVisualizer.init 2 2 "m" false none 0)
          1 1 0 [5, 6, 7, 8] 0 false false).1).img_artist
        = some ((Visualizer.setPose (MapVisualizer.init 2 2 "m" false none 0)
              1 1 0).nextId,
            reshapeGrid [5, 6, 7, 8]
              (MapVisualizer.init 2 2 "m" false none 0).map_size_pixels)) ∧
    (∀ (i : Nat) (g0 : List (List Nat)),
      (MapVisualizer.init 2 2 "m" false none 0).img_artist = some (i, g0) →
      ((MapVisualizer.display (MapVisualizer.init 2 2 "m" false none 0)
          1 1 0 [5, 6, 7, 8] 0 false false).1).img_artist
        = some (i, reshapeGrid [5, 6, 7, 8]
            (MapVisualizer.init 2 2 "m" false none 0).map_size_pixels)) ∧
    (∀ i j : Nat,
      i < (MapVisualizer.init 2 2 "m" false none 0).map_size_pixels →
      j < (MapVisualizer.init 2 2 "m" false none 0).map_size_pixels →
      ((reshapeGrid [5, 6, 7, 8]
          (MapVisualizer.init 2 2 "m" false none 0).map_size_pixels)[i]?).bind
          (fun r => r[j]?)
        = ([5, 6, 7, 8] : List
            Nat)[i * (MapVisualizer.init 2 2 "m" false none 0).map_size_pixels
              + j]?)) :=
  ⟨by decide,
    C5_map_artist (MapVisualizer.init 2 2 "m" false none 0) 1 1 0 [5, 6, 7, 8]
      0 false (by decide)⟩

theorem arange_getElem (start stop step : ℚ) (k : Nat) (tv : ℚ)
    (h : (arange start stop step)[k]? = some tv) :
    tv = start + (k : ℚ) * step := by
  unfold arange at h
  rw [List.getElem?_map] at h
  rcases h2 : (List.range (⌈(stop - start) / step⌉).toNat)[k]? with _ | i
  · rw [h2] at h; simp at h
  · rw [h2] at h
    simp at h
    obtain ⟨hk, hi⟩ := List.getElem?_eq_some_iff.mp h2
    rw [List.getElem_range] at hi
    subst hi
    exact h.symm

theorem mkAxis_ticks (s : VizState) :
    (mkAxis s).ticks
      = arange s.shift ((s.map_size_pixels : ℚ) + s.shift + 100) 100 := rfl

theorem mkAxis_tickLabels (s : VizState) :
    (mkAxis s).tickLabels
      = (mkAxis s).ticks.map
          (fun tv => s.map_scale_meters_per_pixel * tv) := rfl

/-- C6: on the first display call the axis bounds on both axes become
`[shift, pixelSize+shift]`, with `shift = -pixelSize/2` for the pose-only
`Visualizer` and `shift = 0` for the `MapVisualizer` variant; the ticks are
generated at 100-display-unit intervals from `shift`, and each tick label
equals `scale × tickPixelValue`. -/
theorem C6_axis (s : VizState) (x y θ : ℚ) (n : Nat) (w : ℚ) (t : String)
    (st : Bool) (za : Option ℚ) (fid : Nat) (hv : s.vehicle = none) :
    ((Visualizer.setPose s x y θ).axisCfg = some (mkAxis s) ∧
      (mkAxis s).xlim = (s.shift, (s.map_size_pixels : ℚ) + s.shift) ∧
      (mkAxis s).ylim = (s.shift, (s.map_size_pixels : ℚ) + s.shift) ∧
      ∀ (k : Nat) (tv : ℚ), (mkAxis s).ticks[k]? = some tv →
        tv = s.shift + (k : ℚ) * 100 ∧
        (mkAxis s).tickLabels[k]?
          = some (s.map_scale_meters_per_pixel * tv)) ∧
    (Visualizer.init n w t st za fid).shift = -(n : ℚ) / 2 ∧
    (MapVisualizer.init n w t st za fid).shift = 0 := by
  refine ⟨⟨?_, rfl, rfl, ?_⟩, rfl, rfl⟩
  · simp [hv]
  · intro k tv htv
    constructor
    · rw [mkAxis_ticks] at htv
      exact arange_getElem _ _ _ k tv htv
    · rw [mkAxis_tickLabels, List.getElem?_map, htv]
      rfl

/-- C6 witness. -/
theorem C6_witness :
    (Visualizer.init 800 10 "d" false none 3).vehicle = none ∧
    (((Visualizer.setPose (Visualizer.init 800 10 "d" false none 3)
          1 1 0).axisCfg
        = some (mkAxis (Visualizer.init 800 10 "d" false none 3)) ∧
      (mkAxis (Visualizer.init 800 10 "d" false none 3)).xlim
        = ((Visualizer.init 800 10 "d" false none 3).shift,
          ((Visualizer.init 800 10 "d" false none 3).map_size_pixels : ℚ)
            + (Visualizer.init 800 10 "d" false none 3).shift) ∧
      (mkAxis (Visualizer.init 800 10 "d" false none 3)).ylim
        = ((Visualizer.init 800 10 "d" false none 3).shift,
          ((Visualizer.init 800 10 "d" false none 3).map_size_pixels : ℚ)
            + (Visualizer.init 800 10 "d" false none 3).shift) ∧
      ∀ (k : Nat) (tv : ℚ),
        (mkAxis (Visualizer.init 800 10 "d" false none 3)).ticks[k]?
          = some tv →
        tv = (Visualizer.init 800 10 "d" false none 3).shift + (k : ℚ) * 100 ∧
        (mkAxis (Visualizer.init 800 10 "d" false none 3)).tickLabels[k]?
          = some ((Visualizer.init 800 10 "d" false none
              3).map_scale_meters_per_pixel * tv)) ∧
    (Visualizer.init 800 10 "d" false none 3).shift = -((800 : Nat) : ℚ) / 2 ∧
    (MapVisualizer.init 800 10 "d" false none 3).shift = 0) :=
  ⟨rfl, C6_axis (Visualizer.init 800 10 "d" false none 3) 1 1 0 800 10 "d"
    false none 3 rfl⟩

theorem eraseZero_setPose (s : VizState) (x y θ : ℚ) :
    eraseZero (Visualizer.setPose s x y θ)
      = Visualizer.setPose (eraseZero s) x y θ := by
  rw [setPose_eq, setPose_eq]
  simp [eraseZero, mkAxis, trajAdd, Visualizer.m2pix, arange]

theorem eraseZero_displayAll (ps : List (ℚ × ℚ × ℚ)) :
    ∀ s : VizState,
      eraseZero (displayAll s ps) = displayAll (eraseZero s) ps := by
  induction ps with
  | nil => intro s; rfl
  | cons p ps ih =>
    intro s
    rw [displayAll_cons, displayAll_cons, ih, eraseZero_setPose]

theorem displayAll_start (ps : List (ℚ × ℚ × ℚ)) :
    ∀ s : VizState, s.start_angle.isSome →
      (displayAll s ps).start_angle = s.start_angle ∧
      (displayAll s ps).start_pos = s.start_pos := by
  induction ps with
  | nil => intro s _; exact ⟨rfl, rfl⟩
  | cons p ps ih =>
    intro s h
    rcases hsa : s.start_angle with _ | a0
    · rw [hsa] at h; simp at h
    · have h1 : (Visualizer.setPose s p.1 p.2.1 p.2.2).start_angle
          = s.start_angle := by simp [hsa]
      have h2 : (Visualizer.setPose s p.1 p.2.1 p.2.2).start_pos
          = s.start_pos := by simp [hsa]
      have h3 := ih (Visualizer.setPose s p.1 p.2.1 p.2.2)
        (by rw [h1, hsa]; rfl)
      rw [displayAll_cons]
      refine ⟨?_, ?_⟩
      · rw [h3.1, h1, hsa]
      · rw [h3.2, h2]

/-- C8: with `zeroAngle` configured, the first pose after construction is
captured as `(startAngle, startPos)` and the reference never changes on later
calls; the reference is never applied, so the displayed glyph and the
trajectory of any display-call sequence are identical whether or not
`zeroAngle` was configured. -/
theorem C8_zero_angle_unused (n : Nat) (w : ℚ) (t : String) (st : Bool)
    (a : ℚ) (fid : Nat) (p : ℚ × ℚ × ℚ) (ps qs : List (ℚ × ℚ × ℚ)) :
    (displayAll (Visualizer.init n w t st (some a) fid)
        (p :: ps)).start_angle = some p.2.2 ∧
    (displayAll (Visualizer.init n w t st (some a) fid)
        (p :: ps)).start_pos = some (p.1, p.2.1) ∧
    (displayAll (Visualizer.init n w t st (some a) fid) qs).vehicle
        = (displayAll (Visualizer.init n w t st none fid) qs).vehicle ∧
    (displayAll (Visualizer.init n w t st (some a) fid) qs).segments
        = (displayAll (Visualizer.init n w t st none fid) qs).segments := by
  have hcapA : (Visualizer.setPose (Visualizer.init n w t st (some a) fid)
      p.1 p.2.1 p.2.2).start_angle = some p.2.2 := by
    simp [Visualizer.init]
  have hcapP : (Visualizer.setPose (Visualizer.init n w t st (some a) fid)
      p.1 p.2.1 p.2.2).start_pos = some (p.1, p.2.1) := by
    simp [Visualizer.init]
  have hkeep := displayAll_start ps
    (Visualizer.setPose (Visualizer.init n w t st (some a) fid)
      p.1 p.2.1 p.2.2) (by rw [hcapA]; rfl)
  have he : eraseZero (displayAll (Visualizer.init n w t st (some a) fid) qs)
      = displayAll (Visualizer.init n w t st none fid) qs := by
    rw [eraseZero_displayAll]
    rfl
  refine ⟨?_, ?_, ?_, ?_⟩
  · rw [displayAll_cons, hkeep.1, hcapA]
  · rw [displayAll_cons, hkeep.2, hcapP]
  · calc (displayAll (Visualizer.init n w t st (some a) fid) qs).vehicle
        = (eraseZero (displayAll (Visualizer.init n w t st (some a) fid)
            qs)).vehicle := rfl
      _ = (displayAll (Visualizer.init n w t st none fid) qs).vehicle := by
          rw [he]
  · calc (displayAll (Visualizer.init n w t st (some a) fid) qs).segments
        = (eraseZero (displayAll (Visualizer.init n w t st (some a) fid)
            qs)).segments := rfl
      _ = (displayAll (Visualizer.init n w t st none fid) qs).segments := by
          rw [he]
